import Mathlib

/-!
Shallow embedding of `src/router.ts` from nodejs-serverless-apigateway-router.

Conventions of the embedding:
* TypeScript `Map` objects are modelled as functions into `Option` (the
  `has`/`get` pair of the source becomes a `match` on the optional value).
* `async` functions that may `throw` are modelled as functions returning
  `Except Thrown _`: `Except.error` is a thrown value, `Except.ok` a
  resolved promise.
* A thrown JavaScript value is either an `Error` instance (carrying its
  `message` string, the only part the source reads) or some other value;
  the `instanceof Error` test of the source becomes a `match` on `Thrown`.
* `JSON.stringify` is applied in the source only to flat objects whose
  property values are strings or a function value; `JVal` models such a
  property value and `jsonStringifyObj` models `JSON.stringify` on such
  objects, including its behaviour of omitting function-valued properties.
* HTTP methods are modelled as strings; the source's `HttpMethod` union is
  a subset of strings and `find` already accepts an arbitrary string.
-/

/-- Property value of a flat JSON-ish object in the source: a string, or a
function value (which `JSON.stringify` omits). -/
inductive JVal where
  | str (v : String)
  | func
deriving DecidableEq

/-- Model of the source's `currentTimeISOString` as it appears in the
default handlers' bodies: the function value itself (uninvoked), opaque to
serialization. -/
def currentTimeISOString : JVal := JVal.func

/-- Hexadecimal digit character, for JSON control-character escapes. -/
def hexDigit (n : Nat) : Char :=
  if n < 10 then Char.ofNat (48 + n) else Char.ofNat (97 + (n - 10))

/-- Four-digit hexadecimal rendering used by the \u escape form. -/
def hex4 (n : Nat) : String :=
  String.mk [hexDigit (n / 4096 % 16), hexDigit (n / 256 % 16),
             hexDigit (n / 16 % 16), hexDigit (n % 16)]

/-- Escape of one character inside a JSON string literal, following
`JSON.stringify`. -/
def jsonEscapeChar (c : Char) : String :=
  if c = '"' then "\\\""
  else if c = '\\' then "\\\\"
  else if c = '\n' then "\\n"
  else if c = '\r' then "\\r"
  else if c = '\t' then "\\t"
  else if c = '\x08' then "\\b"
  else if c = '\x0c' then "\\f"
  else if c.toNat < 32 then "\\u" ++ hex4 c.toNat
  else String.singleton c

/-- JSON string literal for a string value, as `JSON.stringify` renders it. -/
def jsonStr (s : String) : String :=
  "\"" ++ String.join (s.toList.map jsonEscapeChar) ++ "\""

/-- Model of `JSON.stringify` on a flat object given as an ordered list of
(key, value) properties: function-valued properties are omitted, the rest
are rendered as quoted key, colon, rendered value, comma-separated and
wrapped in braces. -/
def jsonStringifyObj (fields : List (String × JVal)) : String :=
  let rendered := fields.filterMap (fun kv =>
    match kv.2 with
    | JVal.str v => some (jsonStr kv.1 ++ ":" ++ jsonStr v)
    | JVal.func => none)
  "\x7b" ++ String.intercalate "," rendered ++ "\x7d"

/-- Keys of the properties that survive `JSON.stringify` (function-valued
properties are dropped). -/
def serializedKeys (fields : List (String × JVal)) : List String :=
  fields.filterMap (fun kv =>
    match kv.2 with
    | JVal.str _ => some kv.1
    | JVal.func => none)

/-- Normalized inbound request (`HttpEventRequest` of the source). -/
structure HttpEventRequest where
  path : String
  method : String
  headers : List (String × String)
  pathParameters : List (String × String)
  queryStringParameters : List (String × String)
  body : String
  isBodyBase64 : Bool
  sourceIp : String
  requestId : String
deriving DecidableEq

/-- Normalized outbound response (`HttpEventResponse` of the source); every
field is optional there. -/
structure HttpEventResponse where
  statusCode : Option Nat := none
  headers : Option (List (String × String)) := none
  body : Option String := none
  isBodyBase64 : Option Bool := none
deriving DecidableEq

/-- JavaScript `Error` instance, restricted to the one property the source
reads: `message`. -/
structure Err where
  message : String
deriving DecidableEq

/-- Value thrown by a handler: an `Error` instance, or any other value
(whose content the source never inspects; we carry an opaque string
payload). -/
inductive Thrown where
  | isError (e : Err)
  | notError (payload : String)
deriving DecidableEq

/-- Route handler type of the source: async, may throw. -/
abbrev RouteHandler := HttpEventRequest → Except Thrown HttpEventResponse

/-- Unhandled-error handler type of the source: async, may throw. -/
abbrev RouteUnhandledErrorHandler :=
  HttpEventRequest → Err → Except Thrown HttpEventResponse

/-- Wildcard method constant of the source. -/
def HttpMethodAny : String := "ANY"

/-- Inner method map of the route table: method string to handler. -/
abbrev MethodMap := String → Option RouteHandler

/-- Route table: path string to method map (the source's nested `Map`). -/
abbrev RouteTable := String → Option MethodMap

/-- Freshly constructed, empty route table (`RouteTable` constructor). -/
def RouteTable.empty : RouteTable := fun _ => none

/-- Embedding of `RouteTable.set` (router.ts lines 46-54): if no method map
exists for the path, start from an empty one; then register the handler
under the method, replacing any previous entry. -/
def RouteTable.set (t : RouteTable) (path method : String)
    (handler : RouteHandler) : RouteTable :=
  let methodMap : MethodMap :=
    match t path with
    | some m => m
    | none => fun _ => none
  fun p =>
    if p = path then
      some (fun mth => if mth = method then some handler else methodMap mth)
    else t p

/-- Embedding of `RouteTable.find` (router.ts lines 56-70): absent when the
path has no entry; otherwise the `ANY` handler when present, else the
method-specific entry. -/
def RouteTable.find (t : RouteTable) (path method : String) :
    Option RouteHandler :=
  match t path with
  | none => none
  | some methodMap =>
    match methodMap HttpMethodAny with
    | some h => some h
    | none => methodMap method

/-- Property list of the default not-found response body (router.ts lines
136-142); `time` holds the uninvoked function `currentTimeISOString`. -/
def notFoundFields (request : HttpEventRequest) : List (String × JVal) :=
  [("path", JVal.str request.path),
   ("method", JVal.str request.method),
   ("requestId", JVal.str request.requestId),
   ("time", currentTimeISOString),
   ("message", JVal.str "404 Not Found")]

/-- Response built by the default not-found handler (router.ts lines
130-144). -/
def notFoundResponse (request : HttpEventRequest) : HttpEventResponse :=
  { statusCode := some 404
    headers := some [("Content-Type", "application/json")]
    body := some (jsonStringifyObj (notFoundFields request)) }

/-- Embedding of the arrow function assigned to the
`routeNotFoundHandlerDefault` field (router.ts lines 130-144). -/
def defaultNotFoundHandler : RouteHandler :=
  fun request => Except.ok (notFoundResponse request)

/-- Property list of the default unhandled-error response body (router.ts
lines 152-158). -/
def unhandledErrorFields (request : HttpEventRequest) (error : Err) :
    List (String × JVal) :=
  [("path", JVal.str request.path),
   ("method", JVal.str request.method),
   ("time", currentTimeISOString),
   ("message", JVal.str "500 Internal Server Error"),
   ("detail", JVal.str error.message)]

/-- Response built by the default unhandled-error handler (router.ts lines
146-160). -/
def unhandledErrorResponse (request : HttpEventRequest) (error : Err) :
    HttpEventResponse :=
  { statusCode := some 500
    headers := some [("Content-Type", "application/json")]
    body := some (jsonStringifyObj (unhandledErrorFields request error)) }

/-- Embedding of the arrow function assigned to the
`routeUnhandledErrorHandlerDefault` field (router.ts lines 146-160). -/
def defaultUnhandledErrorHandler : RouteUnhandledErrorHandler :=
  fun request error => Except.ok (unhandledErrorResponse request error)

/-- Property list of the unknown-error response body (router.ts lines
168-174); the thrown value's content does not appear. -/
def unknownErrorFields (request : HttpEventRequest) : List (String × JVal) :=
  [("path", JVal.str request.path),
   ("method", JVal.str request.method),
   ("time", currentTimeISOString),
   ("message", JVal.str "500 Internal Server Error"),
   ("detail", JVal.str "Unknown")]

/-- Response built by the unknown-error handler (router.ts lines 162-176). -/
def unknownErrorResponse (request : HttpEventRequest) : HttpEventResponse :=
  { statusCode := some 500
    headers := some [("Content-Type", "application/json")]
    body := some (jsonStringifyObj (unknownErrorFields request)) }

/-- Embedding of the arrow function assigned to the
`routeUnhandledErrorUnknownHandler` field (router.ts lines 162-176); it
receives the thrown non-Error value and ignores it. -/
def defaultUnknownErrorHandler (request : HttpEventRequest)
    (_error : String) : Except Thrown HttpEventResponse :=
  Except.ok (unknownErrorResponse request)

/-- Embedding of the `Router<T, K>` class state (router.ts lines 74-88):
one field per instance property, including the readonly fields that hold
the default handler arrow functions. -/
structure Router (T K : Type) where
  requestTransformer : T → HttpEventRequest
  responseTransformer : HttpEventResponse → K
  routeTable : RouteTable
  routeNotFoundHandler : RouteHandler
  routeUnhandledExceptionHandler : RouteUnhandledErrorHandler
  routeUnhandledErrorHandlerDefault : RouteUnhandledErrorHandler
  routeUnhandledErrorUnknownHandler :
    HttpEventRequest → String → Except Thrown HttpEventResponse

/-- Embedding of the `Router` constructor (router.ts lines 82-88): empty
route table, replaceable handlers initialized to the defaults, readonly
default fields holding their arrow functions. -/
def Router.new {T K : Type} (requestTransformer : T → HttpEventRequest)
    (responseTransformer : HttpEventResponse → K) : Router T K :=
  { requestTransformer := requestTransformer
    responseTransformer := responseTransformer
    routeTable := RouteTable.empty
    routeNotFoundHandler := defaultNotFoundHandler
    routeUnhandledExceptionHandler := defaultUnhandledErrorHandler
    routeUnhandledErrorHandlerDefault := defaultUnhandledErrorHandler
    routeUnhandledErrorUnknownHandler := defaultUnknownErrorHandler }

/-- Embedding of `Router.setRoute` (router.ts lines 118-120). -/
def Router.setRoute {T K : Type} (r : Router T K) (path method : String)
    (handler : RouteHandler) : Router T K :=
  { r with routeTable := r.routeTable.set path method handler }

/-- Embedding of `Router.setRouteNotFoundHandler` (router.ts lines
122-124). -/
def Router.setRouteNotFoundHandler {T K : Type} (r : Router T K)
    (handler : RouteHandler) : Router T K :=
  { r with routeNotFoundHandler := handler }

/-- Embedding of `Router.setRouteUnhandledExceptionHandler` (router.ts
lines 126-128): it assigns the `routeUnhandledExceptionHandler` field (a
field that `handle` never reads). -/
def Router.setRouteUnhandledExceptionHandler {T K : Type} (r : Router T K)
    (handler : RouteUnhandledErrorHandler) : Router T K :=
  { r with routeUnhandledExceptionHandler := handler }

/-- Embedding of `Router.handle` (router.ts lines 90-116). The try/catch
nesting of the source is mirrored exactly: the outer catch receives a
failure of the route handler or of the not-found handler; on an `Error` it
calls the `routeUnhandledErrorHandlerDefault` field (not the replaceable
`routeUnhandledExceptionHandler` field) inside an inner try whose catch
calls the same field again on a secondary `Error`, or the unknown handler
on a secondary non-Error; failures of those final calls are uncaught and
propagate. The response transformer is applied to the produced response. -/
def Router.handle {T K : Type} (r : Router T K) (event : T) :
    Except Thrown K :=
  let request := r.requestTransformer event
  let handler := r.routeTable.find request.path request.method
  let firstAttempt : Except Thrown HttpEventResponse :=
    match handler with
    | none => r.routeNotFoundHandler request
    | some h => h request
  let response : Except Thrown HttpEventResponse :=
    match firstAttempt with
    | Except.ok resp => Except.ok resp
    | Except.error thrown =>
      match thrown with
      | Thrown.isError error =>
        match r.routeUnhandledErrorHandlerDefault request error with
        | Except.ok resp => Except.ok resp
        | Except.error thrown2 =>
          match thrown2 with
          | Thrown.isError error2 =>
            r.routeUnhandledErrorHandlerDefault request error2
          | Thrown.notError payload2 =>
            r.routeUnhandledErrorUnknownHandler request payload2
      | Thrown.notError payload =>
        r.routeUnhandledErrorUnknownHandler request payload
  response.map r.responseTransformer

/-! ## Shared example values used by witnesses -/

/-- Example route handler returning a bare 201 response. -/
def exHandlerA : RouteHandler := fun _ => Except.ok { statusCode := some 201 }

/-- Example route handler returning a bare 202 response. -/
def exHandlerG : RouteHandler := fun _ => Except.ok { statusCode := some 202 }

/-- Example normalized request used by witnesses. -/
def exRequest : HttpEventRequest :=
  { path := "/x"
    method := "GET"
    headers := []
    pathParameters := []
    queryStringParameters := []
    body := ""
    isBodyBase64 := false
    sourceIp := "127.0.0.1"
    requestId := "req-1" }

/-! ## Claims about the route table -/

/-- C1: `RouteTable.find(p, m)` returns absent when no entry exists for
`p`; when an entry exists for `p` and an `ANY` handler is registered for
`p`, `find` returns it regardless of `m`; otherwise `find` returns the
method-specific entry for `(p, m)` (the registered handler when present,
absent otherwise). -/
theorem routeTable_find_characterization (t : RouteTable) (p m : String) :
    (t p = none → t.find p m = none) ∧
    (∀ mm : MethodMap, t p = some mm →
      (∀ h, mm HttpMethodAny = some h → t.find p m = some h) ∧
      (mm HttpMethodAny = none → t.find p m = mm m)) := by
  refine ⟨fun h0 => ?_, fun mm hmm => ⟨fun h hany => ?_, fun hany => ?_⟩⟩
  · simp [RouteTable.find, h0]
  · simp [RouteTable.find, hmm, hany]
  · simp [RouteTable.find, hmm, hany]

/-- Witness for C1 at a concrete table: with `ANY` and `GET` both
registered on `/x`, a `POST` lookup returns the `ANY` handler. -/
theorem routeTable_find_characterization_witness :
    RouteTable.find
      ((RouteTable.empty.set "/x" HttpMethodAny exHandlerA).set "/x" "GET"
        exHandlerG) "/x" "POST" = some exHandlerA := by
  have h := routeTable_find_characterization
    ((RouteTable.empty.set "/x" HttpMethodAny exHandlerA).set "/x" "GET"
      exHandlerG) "/x" "POST"
  exact (h.2 _ rfl).1 exHandlerA rfl

/-- C8: registering the same (path, method) pair twice overwrites the
prior handler with no duplicate-detection error — the table after
`set p m h1; set p m h2` equals the table after `set p m h2` alone — and a
subsequent `find p m` returns `h2` (given that no separately registered
`ANY` wildcard shadows the pair, i.e. unless `m` is the wildcard itself or
the path carries no wildcard entry). -/
theorem routeTable_set_lastWriteWins (t : RouteTable) (p m : String)
    (h1 h2 : RouteHandler) :
    (t.set p m h1).set p m h2 = t.set p m h2 ∧
    (m = HttpMethodAny ∨ (∀ mm, t p = some mm → mm HttpMethodAny = none) →
      ((t.set p m h1).set p m h2).find p m = some h2) := by
  constructor
  · funext p'
    by_cases hp : p' = p
    · subst hp
      simp only [RouteTable.set, if_pos rfl]
      congr 1
      funext mth
      by_cases hm : mth = m <;> simp [hm]
    · simp [RouteTable.set, hp]
  · intro hcond
    cases ht : t p with
    | none =>
      by_cases hA : HttpMethodAny = m <;>
        simp [RouteTable.set, RouteTable.find, ht, hA]
    | some mm =>
      by_cases hA : HttpMethodAny = m
      · simp [RouteTable.set, RouteTable.find, ht, hA]
      · rcases hcond with hm' | hno
        · exact absurd hm'.symm hA
        · simp [RouteTable.set, RouteTable.find, ht, hA, hno mm ht]

/-- Witness for C8 at a concrete table: re-registering `GET /w` leaves the
second handler as the lookup result. -/
theorem routeTable_set_lastWriteWins_witness :
    ((RouteTable.empty.set "/w" "GET" exHandlerA).set "/w" "GET"
      exHandlerG).find "/w" "GET" = some exHandlerG :=
  (routeTable_set_lastWriteWins RouteTable.empty "/w" "GET" exHandlerA
    exHandlerG).2 (Or.inr (fun _ hmm => Option.noConfusion hmm))

/-- C10: registering a handler on path `p` leaves `find` unchanged on
every other path `p'`, for every method — including the empty-string
path, which is a key distinct from every other path. -/
theorem routeTable_set_frame (t : RouteTable) (p m : String)
    (h : RouteHandler) (p' m' : String) (hne : p' ≠ p) :
    (t.set p m h).find p' m' = t.find p' m' := by
  simp [RouteTable.set, RouteTable.find, hne]

/-- Witness for C10 at a concrete table: registering on `/a` does not
disturb the entry registered under the empty-string path. -/
theorem routeTable_set_frame_witness :
    ("" : String) ≠ "/a" ∧
    ((RouteTable.empty.set "" "GET" exHandlerA).set "/a" "GET"
      exHandlerG).find "" "POST"
      = (RouteTable.empty.set "" "GET" exHandlerA).find "" "POST" :=
  ⟨by decide,
   routeTable_set_frame (RouteTable.empty.set "" "GET" exHandlerA) "/a"
     "GET" exHandlerG "" "POST" (by decide)⟩

/-! ## Router example instances used by witnesses -/

/-- Route handler that throws an `Error` with message `boom`. -/
def exThrowingHandler : RouteHandler :=
  fun _ => Except.error (Thrown.isError { message := "boom" })

/-- Route handler that throws a non-Error value. -/
def exThrowingNonErrorHandler : RouteHandler :=
  fun _ => Except.error (Thrown.notError "weird")

/-- Custom unhandled-error handler returning status 599, used to observe
whether a replacement installed via `setRouteUnhandledExceptionHandler` is
ever invoked. -/
def exCustomErrHandler : RouteUnhandledErrorHandler :=
  fun _ _ => Except.ok { statusCode := some 599 }

/-- Router with identity transformers, a throwing route on `GET /x`, and a
custom handler installed through `setRouteUnhandledExceptionHandler`. -/
def exRouterC2 : Router HttpEventRequest HttpEventResponse :=
  ((Router.new id id).setRouteUnhandledExceptionHandler
    exCustomErrHandler).setRoute "/x" "GET" exThrowingHandler

/-- Router with identity transformers and a throwing route on `GET /x`. -/
def exRouterThrow : Router HttpEventRequest HttpEventResponse :=
  (Router.new id id).setRoute "/x" "GET" exThrowingHandler

/-- Router with identity transformers and a route on `GET /x` that throws
a non-Error value. -/
def exRouterThrowNonError : Router HttpEventRequest HttpEventResponse :=
  (Router.new id id).setRoute "/x" "GET" exThrowingNonErrorHandler

/-- Router with identity transformers and no routes. -/
def exEmptyRouter : Router HttpEventRequest HttpEventResponse :=
  Router.new id id

/-! ## Claims about the request lifecycle -/

/-- C3: when the default error-handling fields are in place (as the
constructor sets them and no setter changes them), every failure of the
dispatched route handler or of the not-found handler is caught inside
`handle`, which always returns the response transformer applied to some
`HttpEventResponse` and never propagates a handler-originated failure. -/
theorem handle_total {T K : Type} (r : Router T K) (event : T)
    (hdef : r.routeUnhandledErrorHandlerDefault = defaultUnhandledErrorHandler)
    (hunk : r.routeUnhandledErrorUnknownHandler = defaultUnknownErrorHandler) :
    ∃ resp : HttpEventResponse,
      r.handle event = Except.ok (r.responseTransformer resp) := by
  rcases hfind : r.routeTable.find (r.requestTransformer event).path
      (r.requestTransformer event).method with _ | h
  · cases hres : r.routeNotFoundHandler (r.requestTransformer event) with
    | ok resp =>
      exact ⟨resp, by simp [Router.handle, hfind, hres, Except.map]⟩
    | error thrown =>
      cases thrown with
      | isError e =>
        exact ⟨unhandledErrorResponse (r.requestTransformer event) e,
          by simp [Router.handle, hfind, hres, hdef,
            defaultUnhandledErrorHandler, Except.map]⟩
      | notError v =>
        exact ⟨unknownErrorResponse (r.requestTransformer event),
          by simp [Router.handle, hfind, hres, hunk,
            defaultUnknownErrorHandler, Except.map]⟩
  · cases hres : h (r.requestTransformer event) with
    | ok resp =>
      exact ⟨resp, by simp [Router.handle, hfind, hres, Except.map]⟩
    | error thrown =>
      cases thrown with
      | isError e =>
        exact ⟨unhandledErrorResponse (r.requestTransformer event) e,
          by simp [Router.handle, hfind, hres, hdef,
            defaultUnhandledErrorHandler, Except.map]⟩
      | notError v =>
        exact ⟨unknownErrorResponse (r.requestTransformer event),
          by simp [Router.handle, hfind, hres, hunk,
            defaultUnknownErrorHandler, Except.map]⟩

/-- Witness for C3 at a concrete router whose route handler throws. -/
theorem handle_total_witness :
    ∃ resp : HttpEventResponse,
      exRouterThrow.handle exRequest
        = Except.ok (exRouterThrow.responseTransformer resp) :=
  handle_total exRouterThrow exRequest rfl rfl

/-- C4: when the selected route handler fails with a recognized `Error`
carrying a message, `handle` returns the transformed default
unhandled-error response: status 500, JSON body built from a property list
carrying the request path, the method, the status message
`500 Internal Server Error`, and the error's message as `detail`. -/
theorem handle_unhandledError_default {T K : Type} (r : Router T K)
    (event : T) (req : HttpEventRequest) (h : RouteHandler) (e : Err)
    (hreq : r.requestTransformer event = req)
    (hdef : r.routeUnhandledErrorHandlerDefault = defaultUnhandledErrorHandler)
    (hfind : r.routeTable.find req.path req.method = some h)
    (hfail : h req = Except.error (Thrown.isError e)) :
    r.handle event
      = Except.ok (r.responseTransformer (unhandledErrorResponse req e)) ∧
    (unhandledErrorResponse req e).statusCode = some 500 ∧
    (unhandledErrorResponse req e).body
      = some (jsonStringifyObj (unhandledErrorFields req e)) ∧
    ("path", JVal.str req.path) ∈ unhandledErrorFields req e ∧
    ("method", JVal.str req.method) ∈ unhandledErrorFields req e ∧
    ("message", JVal.str "500 Internal Server Error")
      ∈ unhandledErrorFields req e ∧
    ("detail", JVal.str e.message) ∈ unhandledErrorFields req e := by
  subst hreq
  refine ⟨?_, rfl, rfl, ?_, ?_, ?_, ?_⟩
  · simp [Router.handle, hfind, hfail, hdef, defaultUnhandledErrorHandler,
      Except.map]
  all_goals simp [unhandledErrorFields]

/-- Witness for C4 at a concrete router whose route handler throws an
`Error` with message `boom`. -/
theorem handle_unhandledError_default_witness :
    exRouterThrow.handle exRequest
      = Except.ok (exRouterThrow.responseTransformer
          (unhandledErrorResponse exRequest { message := "boom" })) :=
  (handle_unhandledError_default exRouterThrow exRequest exRequest
    exThrowingHandler { message := "boom" } rfl rfl rfl rfl).1

/-- C5: when the selected route handler fails with an unrecognized,
non-Error value, `handle` bypasses the unhandled-error handler (no
assumption about that field is needed) and returns the transformed
unknown-error response: status 500, detail `Unknown`, with a body that is
a function of the request alone and carries nothing of the thrown value. -/
theorem handle_unknownError {T K : Type} (r : Router T K) (event : T)
    (req : HttpEventRequest) (h : RouteHandler) (v : String)
    (hreq : r.requestTransformer event = req)
    (hunk : r.routeUnhandledErrorUnknownHandler = defaultUnknownErrorHandler)
    (hfind : r.routeTable.find req.path req.method = some h)
    (hfail : h req = Except.error (Thrown.notError v)) :
    r.handle event
      = Except.ok (r.responseTransformer (unknownErrorResponse req)) ∧
    (unknownErrorResponse req).statusCode = some 500 ∧
    (unknownErrorResponse req).body
      = some (jsonStringifyObj (unknownErrorFields req)) ∧
    ("detail", JVal.str "Unknown") ∈ unknownErrorFields req ∧
    (∀ v' : String,
      r.routeUnhandledErrorUnknownHandler req v'
        = r.routeUnhandledErrorUnknownHandler req v) := by
  subst hreq
  refine ⟨?_, rfl, rfl, ?_, ?_⟩
  · simp [Router.handle, hfind, hfail, hunk, defaultUnknownErrorHandler,
      Except.map]
  · simp [unknownErrorFields]
  · intro v'
    rw [hunk]
    rfl

/-- Witness for C5 at a concrete router whose route handler throws a
non-Error value. -/
theorem handle_unknownError_witness :
    exRouterThrowNonError.handle exRequest
      = Except.ok (exRouterThrowNonError.responseTransformer
          (unknownErrorResponse exRequest)) :=
  (handle_unknownError exRouterThrowNonError exRequest exRequest
    exThrowingNonErrorHandler "weird" rfl rfl rfl rfl).1

/-- C6: when the route handler fails with a recognized `Error` and the
handler stored in the `routeUnhandledErrorHandlerDefault` field itself
fails, the router retries that same field exactly once with the new error
when the secondary failure is a recognized `Error` — returning that second
invocation's transformed outcome — and falls through to the unknown-error
handler when the secondary failure is a non-Error value. -/
theorem handle_secondaryFailure {T K : Type} (r : Router T K) (event : T)
    (req : HttpEventRequest) (h : RouteHandler) (e1 : Err)
    (hreq : r.requestTransformer event = req)
    (hfind : r.routeTable.find req.path req.method = some h)
    (hfail : h req = Except.error (Thrown.isError e1)) :
    (∀ e2 : Err,
      r.routeUnhandledErrorHandlerDefault req e1
          = Except.error (Thrown.isError e2) →
      r.handle event
        = (r.routeUnhandledErrorHandlerDefault req e2).map
            r.responseTransformer) ∧
    (∀ v : String,
      r.routeUnhandledErrorHandlerDefault req e1
          = Except.error (Thrown.notError v) →
      r.handle event
        = (r.routeUnhandledErrorUnknownHandler req v).map
            r.responseTransformer) := by
  subst hreq
  constructor
  · intro e2 hx
    simp [Router.handle, hfind, hfail, hx]
  · intro v hx
    simp [Router.handle, hfind, hfail, hx]

/-- Unhandled-error handler that fails with a recognized `Error` with
message `second` when given the error `boom`, and succeeds otherwise. -/
def exFailingErrHandler : RouteUnhandledErrorHandler := fun _ e =>
  if e.message = "boom" then
    Except.error (Thrown.isError { message := "second" })
  else Except.ok { statusCode := some 503 }

/-- Router state whose `routeUnhandledErrorHandlerDefault` field fails on
the first error it receives. -/
def exRouterC6 : Router HttpEventRequest HttpEventResponse :=
  { exRouterThrow with routeUnhandledErrorHandlerDefault :=
      exFailingErrHandler }

/-- Witness for C6 at a concrete router: after a `boom` failure and a
`second` secondary failure, `handle` returns the second invocation's
transformed outcome. -/
theorem handle_secondaryFailure_witness :
    exRouterC6.handle exRequest
      = (exRouterC6.routeUnhandledErrorHandlerDefault exRequest
          { message := "second" }).map exRouterC6.responseTransformer :=
  (handle_secondaryFailure exRouterC6 exRequest exRequest
    exThrowingHandler { message := "boom" } rfl rfl rfl).1
    { message := "second" } rfl

/-- C7: when the route table has no handler for the request's path and
method and the not-found handler is the default one, `handle` returns the
transformed default not-found response: status 404, JSON body built from a
property list carrying the requested path, the method, and the request
identifier. -/
theorem handle_notFound {T K : Type} (r : Router T K) (event : T)
    (req : HttpEventRequest)
    (hreq : r.requestTransformer event = req)
    (hnf : r.routeNotFoundHandler = defaultNotFoundHandler)
    (hfind : r.routeTable.find req.path req.method = none) :
    r.handle event
      = Except.ok (r.responseTransformer (notFoundResponse req)) ∧
    (notFoundResponse req).statusCode = some 404 ∧
    (notFoundResponse req).body
      = some (jsonStringifyObj (notFoundFields req)) ∧
    ("path", JVal.str req.path) ∈ notFoundFields req ∧
    ("method", JVal.str req.method) ∈ notFoundFields req ∧
    ("requestId", JVal.str req.requestId) ∈ notFoundFields req := by
  subst hreq
  refine ⟨?_, rfl, rfl, ?_, ?_, ?_⟩
  · simp [Router.handle, hfind, hnf, defaultNotFoundHandler, Except.map]
  all_goals simp [notFoundFields]

/-- Witness for C7 at a concrete router with no routes. -/
theorem handle_notFound_witness :
    exEmptyRouter.handle exRequest
      = Except.ok (exEmptyRouter.responseTransformer
          (notFoundResponse exRequest)) :=
  (handle_notFound exEmptyRouter exRequest exRequest rfl rfl rfl).1

/-- C2 fails on the code: `handle` always calls the readonly
`routeUnhandledErrorHandlerDefault` field, never the
`routeUnhandledExceptionHandler` field that
`setRouteUnhandledExceptionHandler` assigns. Concretely: after installing
a replacement handler that returns status 599, a request whose route
handler throws `boom` still produces the default 500 response, which
differs from the replacement's response. -/
theorem setRouteUnhandledExceptionHandler_ignored :
    exRouterC2.handle exRequest
      = Except.ok (unhandledErrorResponse exRequest { message := "boom" }) ∧
    exCustomErrHandler exRequest { message := "boom" }
      = Except.ok { statusCode := some 599 } ∧
    unhandledErrorResponse exRequest { message := "boom" }
      ≠ { statusCode := some 599 } := by
  refine ⟨rfl, rfl, by decide⟩

/-- C9: in each of the three default fallback bodies the `time` key holds
the uninvoked function value `currentTimeISOString`, so serialization
omits it: the serialized keys are exactly path, method, requestId (for
not-found only) and message, plus detail for the two error handlers, and
`time` is not among them; each default response's body is the
serialization of its property list. -/
theorem defaultBodies_omit_time (request : HttpEventRequest) (error : Err) :
    serializedKeys (notFoundFields request)
      = ["path", "method", "requestId", "message"] ∧
    serializedKeys (unhandledErrorFields request error)
      = ["path", "method", "message", "detail"] ∧
    serializedKeys (unknownErrorFields request)
      = ["path", "method", "message", "detail"] ∧
    "time" ∉ serializedKeys (notFoundFields request) ∧
    "time" ∉ serializedKeys (unhandledErrorFields request error) ∧
    "time" ∉ serializedKeys (unknownErrorFields request) ∧
    ("time", currentTimeISOString) ∈ notFoundFields request ∧
    ("time", currentTimeISOString) ∈ unhandledErrorFields request error ∧
    ("time", currentTimeISOString) ∈ unknownErrorFields request ∧
    (notFoundResponse request).body
      = some (jsonStringifyObj (notFoundFields request)) ∧
    (unhandledErrorResponse request error).body
      = some (jsonStringifyObj (unhandledErrorFields request error)) ∧
    (unknownErrorResponse request).body
      = some (jsonStringifyObj (unknownErrorFields request)) := by
  refine ⟨rfl, rfl, rfl, ?_, ?_, ?_, ?_, ?_, ?_, rfl, rfl, rfl⟩
  · show ("time" : String) ∉ ["path", "method", "requestId", "message"]
    decide
  · show ("time" : String) ∉ ["path", "method", "message", "detail"]
    decide
  · show ("time" : String) ∉ ["path", "method", "message", "detail"]
    decide
  · simp [notFoundFields]
  · simp [unhandledErrorFields]
  · simp [unknownErrorFields]
